import Mathlib

/-!
Verification of the AIImageEditor upload-validate-encode-submit-parse pipeline.

The development shallowly embeds the two components of the application:

* Image Intake: the `handleFileChange` / `handleRemoveImage` handlers of the
  `App` component, which validate selected files against a MIME allow-list and
  a 5-image cap and append encoded records to the session collection.
* Fusion Request Pipeline: `handleSubmit` together with
  `mergeImagesWithAI` from `services/geminiService.ts`, which validates inputs,
  builds the multi-part request, dispatches it, and parses the response.

JavaScript strings are modelled as Lean `String`; `split(',')` is modelled by
an explicit character-level split; the asynchronous `FileReader` reads are
modelled by a `readResult` field on the file (the data URL delivered to
`onload`, or `none` when the read fails or delivers a non-string). Because
`FileReader` callbacks only run after the synchronous event handler returns,
the in-batch counter `newImages.length` is `0` throughout the synchronous
validation loop, and the trailing `setError(null)` of the handler runs before
any `onload` fires; the embedding reflects both facts.
-/

namespace AIImageEditor

/-- A selected file as the browser hands it to the handler: its name, its
declared MIME type, and the result its `FileReader.readAsDataURL` read will
deliver to `onload` (`none` when the read fails or the result is not a
string, in which case the guarded `onload` body never pushes a record). -/
structure JsFile where
  name : String
  type : String
  readResult : Option String
deriving DecidableEq, Repr

/-- The `UploadedImage` record of `types.ts`. -/
structure UploadedImage where
  id : String
  file : JsFile
  base64 : String
  mimeType : String
deriving DecidableEq, Repr

/-- The `GeneratedResult` record of `types.ts`: both fields nullable. -/
structure GeneratedResult where
  image : Option String
  text : Option String
deriving DecidableEq, Repr

/-- The `allowedTypes` list of `handleFileChange`. -/
def allowedTypes : List String := ["image/jpeg", "image/png", "image/webp"]

/-- The cap message of `handleFileChange`. -/
def capMsg : String := "You can upload a maximum of 5 images."

/-- The unsupported-type message of `handleFileChange`, naming the type. -/
def typeMsg (t : String) : String :=
  "File type " ++ t ++ " is not supported. Please use JPG, PNG, or WEBP."

/-- The component state the claims mention: the session's image collection
and the error message shown to the user. -/
structure AppState where
  uploadedImages : List UploadedImage
  error : Option String
deriving DecidableEq, Repr

/-- The synchronous per-file decision of the `forEach` body of
`handleFileChange`: the error message it emits via `setError`, or `none`
when the file passes both checks and a `FileReader` is started. `cur` is
`uploadedImages.length + newImages.length`; since the `onload` callbacks
that push into `newImages` only run after the synchronous loop finishes,
`newImages.length` is `0` at every check, so `cur` is the session count. -/
def fileDecision (cur : Nat) (f : JsFile) : Option String :=
  if cur ≥ 5 then some capMsg
  else if ¬ (allowedTypes.contains f.type) then some (typeMsg f.type)
  else none

/-- The record built in the `onload` callback of `handleFileChange`; `now`
models the `Date.now()` call and `r` the string delivered to the reader. -/
def mkRecord (now : Nat) (f : JsFile) (r : String) : UploadedImage :=
  { id := f.name ++ "-" ++ toString now
    file := f
    base64 := r
    mimeType := f.type }

/-- The `handleFileChange` handler. Returns the post-batch state (once every
started read has fired its callback) together with the list of `setError`
messages the synchronous loop emitted, in order. The collection is appended
to only when the number of pushed records equals `files.length`, exactly as
the guard `newImages.length === files.length` of the source demands; the
`error` field ends as `none` because the handler's trailing `setError(null)`
runs after the whole loop. -/
def handleFileChange (s : AppState) (files : List JsFile) (now : Nat) :
    AppState × List String :=
  let cur := s.uploadedImages.length
  let started := files.filter (fun f => (fileDecision cur f).isNone)
  let emitted := files.filterMap (fileDecision cur)
  let newRecs := started.filterMap (fun f => (f.readResult).map (mkRecord now f))
  let images :=
    if newRecs.length = files.length then s.uploadedImages ++ newRecs
    else s.uploadedImages
  ({ uploadedImages := images, error := none }, emitted)

/-- The `handleRemoveImage` handler: filter the record with the given id out
of the collection. -/
def handleRemoveImage (s : AppState) (targetId : String) : AppState :=
  { s with uploadedImages := s.uploadedImages.filter (fun img => img.id ≠ targetId) }

/-- One Image Intake operation on the session: a batch selection (with the
timestamp `Date.now()` returns for it) or a removal by id. -/
inductive IntakeOp where
  | select (files : List JsFile) (now : Nat)
  | remove (targetId : String)
deriving DecidableEq, Repr

/-- Apply one Image Intake operation to the state. -/
def applyOp (s : AppState) : IntakeOp → AppState
  | IntakeOp.select files now => (handleFileChange s files now).1
  | IntakeOp.remove targetId => handleRemoveImage s targetId

/-- Run a sequence of Image Intake operations from the empty session. -/
def runOps (ops : List IntakeOp) : AppState :=
  ops.foldl applyOp { uploadedImages := [], error := none }

/-! The Fusion Request Pipeline: `services/geminiService.ts`. -/

/-- The `inlineData` payload of a request or response part. -/
structure InlineData where
  mimeType : String
  data : String
deriving DecidableEq, Repr

/-- A request/response `Part`: optional text, optional inline image data.
An absent field is JavaScript `undefined`, hence falsy. -/
structure Part where
  text : Option String
  inlineData : Option InlineData
deriving DecidableEq, Repr

/-- The `content` of a response candidate. -/
structure Content where
  parts : List Part
deriving DecidableEq, Repr

/-- One response candidate. -/
structure Candidate where
  content : Content
deriving DecidableEq, Repr

/-- The response of `ai.models.generateContent`. -/
structure GenerateContentResponse where
  candidates : List Candidate
deriving DecidableEq, Repr

/-- JavaScript truthiness of a nullable string: falsy exactly when it is
absent or the empty string. -/
def strTruthy : Option String → Bool
  | none => false
  | some t => t ≠ ""

/-- Character-level model of JavaScript `String.prototype.trim`: drop
whitespace from both ends. -/
def jsTrim (s : String) : String :=
  (((s.data.dropWhile Char.isWhitespace).reverse.dropWhile Char.isWhitespace).reverse).asString

/-- Character-level model of JavaScript `String.prototype.split` with the
one-character separator comma: the list of comma-free segments, in order. -/
def splitCommaAux : List Char → List Char → List (List Char)
  | [], acc => [acc.reverse]
  | c :: cs, acc =>
    if c = ',' then acc.reverse :: splitCommaAux cs [] else splitCommaAux cs (c :: acc)

/-- The model of `s.split(',')`. -/
def jsSplitComma (s : String) : List String :=
  (splitCommaAux s.data []).map List.asString

/-- The instruction text of `mergeImagesWithAI`, embedding the background
prompt exactly where the template literal interpolates it. -/
def fullPrompt (backgroundPrompt : String) : String :=
  "Merge the subjects from the provided images into a single, cohesive new image. The new background for this scene should be: \"" ++
    backgroundPrompt ++
    "\". Please ensure the lighting and shadows on the subjects match the new background for a realistic and natural look."

/-- The per-image part construction of `mergeImagesWithAI`: take
`img.base64.split(',')[1]`; when that is `undefined` or the empty string the
source throws the invalid-base64 error naming the file. -/
def imagePart (img : UploadedImage) : Except String Part :=
  match (jsSplitComma img.base64).get? 1 with
  | none => Except.error ("Invalid base64 data for image " ++ img.file.name)
  | some d =>
    if d = "" then Except.error ("Invalid base64 data for image " ++ img.file.name)
    else Except.ok { text := none, inlineData := some { mimeType := img.mimeType, data := d } }

/-- The `images.map(...)` of the `parts` array literal: build one inline
part per image, left to right, the first thrown error aborting the whole
construction exactly as a throw inside `Array.prototype.map` does. -/
def mapParts : List UploadedImage → Except String (List Part)
  | [] => Except.ok []
  | img :: rest =>
    match imagePart img with
    | Except.error m => Except.error m
    | Except.ok p =>
      match mapParts rest with
      | Except.error m => Except.error m
      | Except.ok ps => Except.ok (p :: ps)

/-- The `parts` array of `mergeImagesWithAI`: the single instruction part
followed by one inline-image part per image, in collection order. -/
def buildParts (images : List UploadedImage) (backgroundPrompt : String) :
    Except String (List Part) :=
  match mapParts images with
  | Except.error m => Except.error m
  | Except.ok imgParts =>
    Except.ok ({ text := some (fullPrompt backgroundPrompt), inlineData := none } :: imgParts)

/-- The data URI built from a response part's inline data. -/
def dataURI (d : InlineData) : String :=
  "data:" ++ d.mimeType ++ ";base64," ++ d.data

/-- The response-scanning loop body: `if (part.inlineData) { result.image =
... } else if (part.text) { result.text = part.text }`. -/
def applyPart (r : GeneratedResult) (p : Part) : GeneratedResult :=
  match p.inlineData with
  | some d => { r with image := some (dataURI d) }
  | none => if strTruthy p.text then { r with text := p.text } else r

/-- The response parsing of `mergeImagesWithAI`: when at least one candidate
is present, fold the scanning loop over the first candidate's parts, starting
from `{ image: null, text: null }`. -/
def parseResponse (resp : GenerateContentResponse) : GeneratedResult :=
  match resp.candidates with
  | [] => { image := none, text := none }
  | c :: _ => c.content.parts.foldl applyPart { image := none, text := none }

/-- The semantic no-image error message. -/
def noImageMsg : String :=
  "The AI did not return an image. Please try adjusting your prompt or using different images."

/-- The catch-block wrapper of `mergeImagesWithAI` for thrown `Error`s. -/
def wrapErr (m : String) : String := "Failed to generate image: " ++ m

/-- The `mergeImagesWithAI` pipeline with the external service modelled as a
stub that returns `resp`. Produces the result (or the wrapped error message)
together with a flag recording whether the dispatch to the service happened:
part construction precedes the `generateContent` call, so a construction
failure returns before any network activity. -/
def mergeImagesWithAI (images : List UploadedImage) (backgroundPrompt : String)
    (resp : GenerateContentResponse) : Except String GeneratedResult × Bool :=
  match buildParts images backgroundPrompt with
  | Except.error m => (Except.error (wrapErr m), false)
  | Except.ok _ =>
    let result := parseResponse resp
    if strTruthy result.image then (Except.ok result, true)
    else (Except.error (wrapErr noImageMsg), true)

/-- The validation message of `handleSubmit`. -/
def validationMsg : String :=
  "Please upload at least 2 images and provide a background description."

/-- The outcome of a `handleSubmit` run: the error state it leaves, the
generated result it stores, and whether the external service was invoked. -/
structure SubmitOutcome where
  error : Option String
  result : Option GeneratedResult
  networkCalled : Bool
deriving DecidableEq, Repr

/-- The `handleSubmit` handler of `App`: the precondition check
`uploadedImages.length < 2 || !backgroundPrompt.trim()` guards the call to
`mergeImagesWithAI`; a thrown error lands in the error state. -/
def handleSubmit (images : List UploadedImage) (backgroundPrompt : String)
    (resp : GenerateContentResponse) : SubmitOutcome :=
  if images.length < 2 ∨ jsTrim backgroundPrompt = "" then
    { error := some validationMsg, result := none, networkCalled := false }
  else
    match mergeImagesWithAI images backgroundPrompt resp with
    | (Except.ok r, called) => { error := none, result := some r, networkCalled := called }
    | (Except.error m, called) => { error := some m, result := none, networkCalled := called }

/-! Spec-side characterisation of the last-wins response scan, used to state
the parsing claim: the image comes from the last part carrying inline data,
the text from the last part that carries no inline data and nonempty text. -/

/-- First-some choice on options: a later overwrite survives exactly when no
still-later one happens. -/
def optOr : Option String → Option String → Option String
  | some a, _ => some a
  | none, b => b

/-- The image a single part contributes to the scan, if any. -/
def imageOfPart (p : Part) : Option String := (p.inlineData).map dataURI

/-- The text a single part contributes to the scan, if any: only a part with
no inline data and truthy text sets the text field. -/
def textOfPart (p : Part) : Option String :=
  match p.inlineData with
  | some _ => none
  | none => if strTruthy p.text then p.text else none

/-- The image of the last inline-image part of the list, parts later in the
list taking precedence. -/
def lastWinsImage : List Part → Option String
  | [] => none
  | p :: ps => optOr (lastWinsImage ps) (imageOfPart p)

/-- The text of the last text part of the list, parts later in the list
taking precedence. -/
def lastWinsText : List Part → Option String
  | [] => none
  | p :: ps => optOr (lastWinsText ps) (textOfPart p)

/-- The base64 segment `split(',')[1]` extracts from a record's payload. -/
def payloadSeg (img : UploadedImage) : Option String :=
  (jsSplitComma img.base64).get? 1

/-- A record's payload is well formed when the extracted base64 segment is
present and nonempty, i.e. exactly when the throw guard of
`mergeImagesWithAI` does not fire for it. -/
def wellFormedPayload (img : UploadedImage) : Bool :=
  match payloadSeg img with
  | none => false
  | some d => d ≠ ""

/-- The inline-image part a well-formed record contributes to the request:
its MIME type and the base64 segment with the data-URI prefix stripped. -/
def strippedPart (img : UploadedImage) : Part :=
  { text := none, inlineData := some { mimeType := img.mimeType, data := (payloadSeg img).getD "" } }

/-- Whether the parts the scan visits (those of the first candidate, when
one exists) carry no inline image data at all. -/
def respNoInline (resp : GenerateContentResponse) : Bool :=
  match resp.candidates with
  | [] => true
  | c :: _ => c.content.parts.all fun p => p.inlineData.isNone

/-! Concrete fixtures used by the counterexamples and witnesses. -/

/-- A well-formed PNG file fixture. -/
def pngFile : JsFile :=
  { name := "b.png", type := "image/png", readResult := some "data:image/png;base64,QUFB" }

/-- A well-formed JPEG file fixture. -/
def jpegFile : JsFile :=
  { name := "c.jpg", type := "image/jpeg", readResult := some "data:image/jpeg;base64,QkJC" }

/-- A GIF file fixture, whose MIME type is outside the allow-list. -/
def gifFile : JsFile :=
  { name := "a.gif", type := "image/gif", readResult := some "data:image/gif;base64,R0lG" }

/-- A well-formed encoded PNG record fixture. -/
def pngImage : UploadedImage :=
  { id := "b.png-0", file := pngFile, base64 := "data:image/png;base64,QUFB"
    mimeType := "image/png" }

/-- A well-formed encoded JPEG record fixture. -/
def jpegImage : UploadedImage :=
  { id := "c.jpg-0", file := jpegFile, base64 := "data:image/jpeg;base64,QkJC"
    mimeType := "image/jpeg" }

/-- A record whose payload has no base64 segment after the comma. -/
def badImage : UploadedImage :=
  { id := "d.png-0", file := { name := "d.png", type := "image/png", readResult := none }
    base64 := "data:image/png;base64,", mimeType := "image/png" }

/-- The stub response of the spec's parsing example: one `image/png` part
with base64 payload `AAAA` and one text part reading `A fused scene.`. -/
def stubResp : GenerateContentResponse :=
  { candidates := [{ content := { parts :=
      [ { text := none, inlineData := some { mimeType := "image/png", data := "AAAA" } }
      , { text := some "A fused scene.", inlineData := none } ] } }] }

/-- A stub response carrying only a text part and no inline image data. -/
def textOnlyResp : GenerateContentResponse :=
  { candidates := [{ content := { parts :=
      [ { text := some "no picture today", inlineData := none } ] } }] }

/-- A numbered PNG file fixture. -/
def pngN (n : Nat) : JsFile :=
  { name := toString n ++ ".png", type := "image/png"
    readResult := some "data:image/png;base64,QUFB" }

/-- A batch of six valid PNG files. -/
def sixFiles : List JsFile := [pngN 1, pngN 2, pngN 3, pngN 4, pngN 5, pngN 6]

/-- The inline data of the stub image part. -/
def stubInline : InlineData := { mimeType := "image/png", data := "AAAA" }

/-- A part that carries both inline image data and text. -/
def partWithBoth : Part := { text := some "caption", inlineData := some stubInline }

/-- A text part whose text is the empty string. -/
def emptyTextPart : Part := { text := some "", inlineData := none }

/-! Helper lemmas. -/

theorem optOr_none_right (a : Option String) : optOr a none = a := by
  cases a <;> rfl

theorem optOr_assoc (a b c : Option String) :
    optOr (optOr a b) c = optOr a (optOr b c) := by
  cases a <;> cases b <;> rfl

theorem applyPart_eq (r : GeneratedResult) (p : Part) :
    applyPart r p = { image := optOr (imageOfPart p) r.image
                      text := optOr (textOfPart p) r.text } := by
  rcases p with ⟨t, i⟩
  cases i with
  | some d => rfl
  | none =>
    simp only [applyPart, imageOfPart, textOfPart, Option.map_none']
    by_cases h : strTruthy t = true
    · rw [if_pos h, if_pos h]
      cases t with
      | none => simp [strTruthy] at h
      | some s => rfl
    · rw [if_neg h, if_neg h]
      simp [optOr]

theorem foldl_applyPart (parts : List Part) (r : GeneratedResult) :
    parts.foldl applyPart r
      = { image := optOr (lastWinsImage parts) r.image
          text := optOr (lastWinsText parts) r.text } := by
  induction parts generalizing r with
  | nil => simp [lastWinsImage, lastWinsText, optOr]
  | cons p ps ih =>
    rw [List.foldl_cons, ih, applyPart_eq]
    simp only [lastWinsImage, lastWinsText, optOr_assoc]

theorem lastWinsImage_of_no_inline (parts : List Part)
    (h : (parts.all fun p => p.inlineData.isNone) = true) :
    lastWinsImage parts = none := by
  induction parts with
  | nil => rfl
  | cons p ps ih =>
    simp only [List.all_cons, Bool.and_eq_true] at h
    have hp : imageOfPart p = none := by
      rcases p with ⟨t, i⟩
      cases i with
      | some d => simp [Option.isNone] at h
      | none => rfl
    rw [lastWinsImage, ih h.2, hp]
    rfl

theorem lastWinsImage_some_dataURI (parts : List Part) (s : String)
    (h : lastWinsImage parts = some s) : ∃ d, s = dataURI d := by
  induction parts with
  | nil => simp [lastWinsImage] at h
  | cons p ps ih =>
    rw [lastWinsImage] at h
    cases hl : lastWinsImage ps with
    | some t =>
      rw [hl] at h
      simp only [optOr] at h
      injection h with h
      subst h
      exact ih hl
    | none =>
      rw [hl] at h
      simp only [optOr] at h
      rcases p with ⟨t, i⟩
      cases i with
      | some d =>
        simp only [imageOfPart, Option.map_some'] at h
        cases h
        exact ⟨d, rfl⟩
      | none => simp [imageOfPart] at h

theorem imagePart_of_wf (img : UploadedImage) (h : wellFormedPayload img = true) :
    imagePart img = Except.ok (strippedPart img) := by
  unfold wellFormedPayload at h
  unfold imagePart strippedPart
  cases hs : payloadSeg img with
  | none => rw [hs] at h; simp at h
  | some d =>
    rw [hs] at h
    simp only [decide_eq_true_eq] at h
    unfold payloadSeg at hs
    rw [hs]
    simp [h, Option.getD]

theorem imagePart_of_bad (img : UploadedImage) (h : wellFormedPayload img = false) :
    imagePart img = Except.error ("Invalid base64 data for image " ++ img.file.name) := by
  unfold wellFormedPayload at h
  unfold imagePart
  cases hs : payloadSeg img with
  | none =>
    unfold payloadSeg at hs
    rw [hs]
  | some d =>
    rw [hs] at h
    simp only [decide_eq_false_iff_not, not_not] at h
    unfold payloadSeg at hs
    rw [hs]
    simp [h]

theorem mapParts_ok (images : List UploadedImage)
    (h : images.all wellFormedPayload = true) :
    mapParts images = Except.ok (images.map strippedPart) := by
  induction images with
  | nil => rfl
  | cons img rest ih =>
    simp only [List.all_cons, Bool.and_eq_true] at h
    rw [mapParts.eq_def]
    simp only [imagePart_of_wf img h.1, ih h.2, List.map_cons]

theorem mapParts_bad (images : List UploadedImage)
    (h : ∃ img ∈ images, wellFormedPayload img = false) :
    ∃ img ∈ images, wellFormedPayload img = false
      ∧ mapParts images
        = Except.error ("Invalid base64 data for image " ++ img.file.name) := by
  induction images with
  | nil => simp at h
  | cons hd rest ih =>
    cases hhd : wellFormedPayload hd with
    | false =>
      refine ⟨hd, List.mem_cons_self hd rest, hhd, ?_⟩
      rw [mapParts.eq_def]
      simp only [imagePart_of_bad hd hhd]
    | true =>
      have hr : ∃ img ∈ rest, wellFormedPayload img = false := by
        rcases h with ⟨img, hmem, hbad⟩
        cases List.mem_cons.mp hmem with
        | inl he => rw [he] at hbad; rw [hbad] at hhd; cases hhd
        | inr hm => exact ⟨img, hm, hbad⟩
      rcases ih hr with ⟨img, hmem, hbad, heq⟩
      refine ⟨img, List.mem_cons_of_mem hd hmem, hbad, ?_⟩
      rw [mapParts.eq_def]
      simp only [imagePart_of_wf hd hhd, heq]

theorem splitCommaAux_no_comma (l acc : List Char) (h : ',' ∉ l) :
    splitCommaAux l acc = [acc.reverse ++ l] := by
  induction l generalizing acc with
  | nil => simp [splitCommaAux]
  | cons c cs ih =>
    have hc : ¬ c = ',' := fun he => h (he ▸ List.mem_cons_self c cs)
    rw [splitCommaAux, if_neg hc, ih (c :: acc) (fun hm => h (List.mem_cons_of_mem c hm))]
    simp

theorem splitCommaAux_append (l₁ l₂ acc : List Char) (h : ',' ∉ l₁) :
    splitCommaAux (l₁ ++ ',' :: l₂) acc
      = (acc.reverse ++ l₁) :: splitCommaAux l₂ [] := by
  induction l₁ generalizing acc with
  | nil => simp [splitCommaAux]
  | cons c cs ih =>
    have hc : ¬ c = ',' := fun he => h (he ▸ List.mem_cons_self c cs)
    rw [List.cons_append, splitCommaAux, if_neg hc,
      ih (c :: acc) (fun hm => h (List.mem_cons_of_mem c hm))]
    simp

theorem asString_data (s : String) : s.data.asString = s := rfl

/-- A file that passes the synchronous checks of `handleFileChange` has a
type on the allow-list. -/
theorem fileDecision_isNone (cur : Nat) (f : JsFile)
    (h : (fileDecision cur f).isNone = true) :
    allowedTypes.contains f.type = true := by
  unfold fileDecision at h
  by_cases h5 : cur ≥ 5
  · rw [if_pos h5] at h
    simp at h
  · rw [if_neg h5] at h
    by_cases ht : allowedTypes.contains f.type = true
    · exact ht
    · rw [if_pos (by simpa using ht)] at h
      simp at h

/-- The MIME allow-list invariant on the session collection. -/
def allowedState (s : AppState) : Prop :=
  ∀ img ∈ s.uploadedImages, allowedTypes.contains img.mimeType = true

theorem allowedState_handleFileChange (s : AppState) (files : List JsFile) (now : Nat)
    (h : allowedState s) : allowedState (handleFileChange s files now).1 := by
  intro img hmem
  unfold handleFileChange at hmem
  simp only at hmem
  by_cases hlen :
      ((files.filter fun f => (fileDecision s.uploadedImages.length f).isNone).filterMap
          fun f => (f.readResult).map (mkRecord now f)).length = files.length
  · rw [if_pos hlen] at hmem
    rcases List.mem_append.mp hmem with hold | hnew
    · exact h img hold
    · rcases List.mem_filterMap.mp hnew with ⟨f, hf, hmk⟩
      rcases List.mem_filter.mp hf with ⟨_, hdec⟩
      cases hr : f.readResult with
      | none => rw [hr] at hmk; cases hmk
      | some r =>
        rw [hr] at hmk
        simp only [Option.map_some'] at hmk
        injection hmk with hmk
        rw [← hmk]
        exact fileDecision_isNone _ f hdec
  · rw [if_neg hlen] at hmem
    exact h img hmem

theorem allowedState_applyOp (s : AppState) (op : IntakeOp)
    (h : allowedState s) : allowedState (applyOp s op) := by
  cases op with
  | select files now => exact allowedState_handleFileChange s files now h
  | remove targetId =>
    intro img hmem
    exact h img (List.mem_filter.mp hmem).1

theorem allowedState_foldl (ops : List IntakeOp) (s : AppState)
    (h : allowedState s) : allowedState (ops.foldl applyOp s) := by
  induction ops generalizing s with
  | nil => exact h
  | cons op rest ih => exact ih _ (allowedState_applyOp s op h)

theorem parseResponse_image_some (resp : GenerateContentResponse) (s : String)
    (h : (parseResponse resp).image = some s) : ∃ d, s = dataURI d := by
  rcases resp with ⟨cands⟩
  cases cands with
  | nil => exact Option.noConfusion h
  | cons c cs =>
    have h' : (c.content.parts.foldl applyPart { image := none, text := none }).image
        = some s := h
    rw [foldl_applyPart] at h'
    simp only [optOr_none_right] at h'
    exact lastWinsImage_some_dataURI _ s h'

/-! The claims. -/

/-- C1. The claim says a batch holding a disallowed file alongside valid
files rejects the disallowed file with a message naming its MIME type while
the valid files are still appended to the session collection. On the code,
the rejection message is emitted (and then overwritten by the trailing
`setError(null)` of the same handler), but the valid file is never appended:
the guard `newImages.length === files.length` compares the pushed records
against the full batch size including the rejected file, so it never fires.
This theorem evaluates the handler at the failing input: a batch of one GIF
and one valid PNG leaves the collection empty. -/
theorem C1_mixed_batch_drops_valid_files :
    (handleFileChange { uploadedImages := [], error := none } [gifFile, pngFile] 0).2
      = [typeMsg "image/gif"]
    ∧ (handleFileChange { uploadedImages := [], error := none } [gifFile, pngFile] 0).1
      = { uploadedImages := [], error := none } := by
  exact ⟨rfl, rfl⟩

/-- C2. The claim says the session collection never holds more than 5
records. On the code, the cap guard reads `uploadedImages.length +
newImages.length`, and `newImages` is still empty throughout the synchronous
validation loop because the `FileReader` callbacks that push into it only
run afterwards; a single batch of 6 valid files therefore passes every check
and all 6 records are appended. This theorem evaluates the handler at the
failing input. -/
theorem C2_single_batch_breaches_cap :
    ((runOps [IntakeOp.select sixFiles 0]).uploadedImages).length = 6 := by
  rfl

/-- C3. A submission with fewer than 2 images, or with a prompt that is
empty after trimming, fails with the validation message and never reaches
`mergeImagesWithAI`, so the external service is not invoked. -/
theorem C3_validation_blocks_network (images : List UploadedImage)
    (prompt : String) (resp : GenerateContentResponse)
    (h : images.length < 2 ∨ jsTrim prompt = "") :
    handleSubmit images prompt resp
      = { error := some validationMsg, result := none, networkCalled := false } := by
  unfold handleSubmit
  rw [if_pos h]

/-- Witness for C3 at a concrete input: one image and a nonempty prompt. -/
theorem C3_validation_blocks_network_witness :
    handleSubmit [pngImage] "sunset" stubResp
      = { error := some validationMsg, result := none, networkCalled := false } :=
  C3_validation_blocks_network [pngImage] "sunset" stubResp (Or.inl (by decide))

/-- C4. The response scan is last-wins for both fields: on any response
whose first candidate holds `parts`, the result image is the data URI of the
last inline-image part and the result text is the text of the last text
part; and on the stub response with one `image/png` part with payload `AAAA`
and one text part reading `A fused scene.`, the pipeline returns exactly
that data URI and that text. -/
theorem C4_parse_last_wins :
    (∀ (parts : List Part) (rest : List Candidate),
      parseResponse { candidates := { content := { parts := parts } } :: rest }
        = { image := lastWinsImage parts, text := lastWinsText parts })
    ∧ mergeImagesWithAI [pngImage, jpegImage] "sunset beach" stubResp
        = (Except.ok { image := some "data:image/png;base64,AAAA"
                       text := some "A fused scene." }, true) := by
  constructor
  · intro parts rest
    show parts.foldl applyPart { image := none, text := none } = _
    rw [foldl_applyPart]
    simp only [optOr_none_right]
  · rfl

/-- C5. A dispatched response carrying no inline image data fails with the
wrapped no-image message even though the transport succeeded; and whenever
the pipeline returns normally, the image field holds a data-URI string. -/
theorem C5_image_mandatory :
    (∀ (images : List UploadedImage) (prompt : String) (resp : GenerateContentResponse),
      images.all wellFormedPayload = true → respNoInline resp = true →
      mergeImagesWithAI images prompt resp = (Except.error (wrapErr noImageMsg), true))
    ∧ (∀ (images : List UploadedImage) (prompt : String)
        (resp : GenerateContentResponse) (res : GeneratedResult) (called : Bool),
      mergeImagesWithAI images prompt resp = (Except.ok res, called) →
      ∃ d, res.image = some (dataURI d)) := by
  constructor
  · intro images prompt resp hw hn
    have himg : (parseResponse resp).image = none := by
      rcases resp with ⟨cands⟩
      cases cands with
      | nil => rfl
      | cons c cs =>
        have hn' : (c.content.parts.all fun p => p.inlineData.isNone) = true := hn
        show (c.content.parts.foldl applyPart { image := none, text := none }).image = none
        rw [foldl_applyPart, lastWinsImage_of_no_inline _ hn']
        rfl
    unfold mergeImagesWithAI
    rw [buildParts.eq_def, mapParts_ok images hw]
    simp [himg, strTruthy]
  · intro images prompt resp res called h
    unfold mergeImagesWithAI at h
    cases hb : buildParts images prompt with
    | error m =>
      rw [hb] at h
      simp at h
    | ok ps =>
      rw [hb] at h
      simp only at h
      by_cases ht : strTruthy (parseResponse resp).image = true
      · rw [if_pos ht] at h
        injection h with h1 h2
        injection h1 with h1
        cases hs : (parseResponse resp).image with
        | none => rw [hs] at ht; simp [strTruthy] at ht
        | some s =>
          rcases parseResponse_image_some resp s hs with ⟨d, hd⟩
          exact ⟨d, by rw [← h1, hs, hd]⟩
      · rw [if_neg ht] at h
        injection h with h1 h2
        simp at h1

/-- Witness for C5 at concrete inputs: two well-formed images against the
text-only stub give the wrapped no-image error, and against the image stub
the returned image is a data URI. -/
theorem C5_image_mandatory_witness :
    mergeImagesWithAI [pngImage, jpegImage] "x" textOnlyResp
      = (Except.error (wrapErr noImageMsg), true)
    ∧ ∃ d, (GeneratedResult.mk (some "data:image/png;base64,AAAA")
        (some "A fused scene.")).image = some (dataURI d) :=
  ⟨C5_image_mandatory.1 [pngImage, jpegImage] "x" textOnlyResp (by decide) (by decide),
   C5_image_mandatory.2 [pngImage, jpegImage] "sunset beach" stubResp
     { image := some "data:image/png;base64,AAAA", text := some "A fused scene." }
     true (by rfl)⟩

/-- C6 counterexample. The claim says the instruction part embeds the
trimmed background prompt. On the code the prompt is interpolated verbatim:
with the valid prompt `"  beach  "` the instruction embeds the surrounding
whitespace, and differs from the instruction built on the trimmed prompt. -/
theorem C6_untrimmed_prompt_counterexample :
    buildParts [pngImage, jpegImage] "  beach  "
      = Except.ok ({ text := some (fullPrompt "  beach  "), inlineData := none }
          :: [pngImage, jpegImage].map strippedPart)
    ∧ fullPrompt "  beach  " ≠ fullPrompt (jsTrim "  beach  ") := by
  constructor
  · rfl
  · decide

/-- C6 as amended: for every valid input, the request is one ordered list of
parts whose first element is the single text instruction embedding the
background prompt exactly as given (not trimmed), followed by one
inline-image part per record in collection order, each carrying the base64
segment with the data-URI prefix stripped and the record's MIME type. -/
theorem C6_request_parts_shape (images : List UploadedImage) (prompt : String)
    (_h2 : 2 ≤ images.length) (_hp : jsTrim prompt ≠ "")
    (hw : images.all wellFormedPayload = true) :
    buildParts images prompt
      = Except.ok ({ text := some (fullPrompt prompt), inlineData := none }
          :: images.map strippedPart) := by
  rw [buildParts.eq_def, mapParts_ok images hw]

/-- Witness for C6 at a concrete input: two well-formed images and a
nonempty prompt. -/
theorem C6_request_parts_shape_witness :
    buildParts [pngImage, jpegImage] "sunset"
      = Except.ok ({ text := some (fullPrompt "sunset"), inlineData := none }
          :: [pngImage, jpegImage].map strippedPart) :=
  C6_request_parts_shape [pngImage, jpegImage] "sunset"
    (by decide) (by decide) (by decide)

/-- C7. When some image of the request has a missing or empty base64
segment, the pipeline fails before dispatch (the service is never invoked)
with the wrapped encoding error naming the offending file. -/
theorem C7_bad_base64_fails_before_dispatch (images : List UploadedImage)
    (prompt : String) (resp : GenerateContentResponse)
    (h : ∃ img ∈ images, wellFormedPayload img = false) :
    (mergeImagesWithAI images prompt resp).2 = false
    ∧ ∃ img ∈ images, wellFormedPayload img = false
        ∧ (mergeImagesWithAI images prompt resp).1
          = Except.error (wrapErr ("Invalid base64 data for image " ++ img.file.name)) := by
  rcases mapParts_bad images h with ⟨img, hmem, hbad, heq⟩
  have hb : buildParts images prompt
      = Except.error ("Invalid base64 data for image " ++ img.file.name) := by
    rw [buildParts.eq_def, heq]
  constructor
  · unfold mergeImagesWithAI
    rw [hb]
  · refine ⟨img, hmem, hbad, ?_⟩
    unfold mergeImagesWithAI
    rw [hb]

/-- Witness for C7 at a concrete input: a batch holding a record whose
payload ends at the comma. -/
theorem C7_bad_base64_fails_before_dispatch_witness :
    (mergeImagesWithAI [pngImage, badImage] "x" stubResp).2 = false
    ∧ ∃ img ∈ [pngImage, badImage], wellFormedPayload img = false
        ∧ (mergeImagesWithAI [pngImage, badImage] "x" stubResp).1
          = Except.error (wrapErr ("Invalid base64 data for image " ++ img.file.name)) :=
  C7_bad_base64_fails_before_dispatch [pngImage, badImage] "x" stubResp
    ⟨badImage, by decide, by decide⟩

/-- C8. Round-trip: splitting a data URI `data:<mimeType>;base64,<payload>`
on commas and taking index 1, as the dispatch path does, returns exactly the
base64 payload, provided neither the MIME type nor the payload contains a
comma (base64 text never does). -/
theorem C8_data_uri_roundtrip (mime payload : String)
    (hm : ',' ∉ mime.data) (hp : ',' ∉ payload.data) :
    (jsSplitComma ("data:" ++ mime ++ ";base64," ++ payload)).get? 1 = some payload := by
  have hdata : ("data:" ++ mime ++ ";base64," ++ payload).data
      = ("data:".data ++ mime.data ++ ";base64".data) ++ ',' :: payload.data := by
    have h8 : (";base64,").data = ";base64".data ++ [','] := by decide
    simp [String.data_append, h8, List.append_assoc]
  have h1 : ',' ∉ ("data:".data ++ mime.data ++ ";base64".data) := by
    intro hmem
    rcases List.mem_append.mp hmem with h' | h'
    · rcases List.mem_append.mp h' with h'' | h''
      · exact absurd h'' (by decide)
      · exact hm h''
    · exact absurd h' (by decide)
  unfold jsSplitComma
  rw [hdata, splitCommaAux_append _ _ _ h1, splitCommaAux_no_comma _ _ hp]
  simp [asString_data]

/-- Witness for C8 at a concrete data URI. -/
theorem C8_data_uri_roundtrip_witness :
    (jsSplitComma ("data:" ++ "image/png" ++ ";base64," ++ "QUFB")).get? 1 = some "QUFB" :=
  C8_data_uri_roundtrip "image/png" "QUFB" (by decide) (by decide)

/-- C9. Invariant: after any sequence of Image Intake operations (batch
selections and removals) starting from the empty session, every record in
the collection has a MIME type on the allow-list: the synchronous type check
precedes the creation of any reader, appended records copy the checked file
type, and removal only filters. -/
theorem C9_mime_allowlist_invariant (ops : List IntakeOp) :
    ((runOps ops).uploadedImages.all fun img => allowedTypes.contains img.mimeType)
      = true := by
  rw [List.all_eq_true]
  intro img hmem
  unfold runOps at hmem
  exact allowedState_foldl ops _ (fun x hx => absurd hx (List.not_mem_nil x)) img hmem

/-- C10. Parsing edge cases: a part that carries both inline image data and
text contributes only its image, its text being ignored by the else-if; and
a text part whose text is the empty string leaves the result unchanged, in
particular it never sets the text field. -/
theorem C10_parse_edge_cases :
    (∀ (r : GeneratedResult) (p : Part) (d : InlineData), p.inlineData = some d →
      applyPart r p = { image := some (dataURI d), text := r.text })
    ∧ (∀ (r : GeneratedResult) (p : Part), p.inlineData = none → p.text = some "" →
      applyPart r p = r) := by
  constructor
  · intro r p d h
    rcases p with ⟨t, i⟩
    cases h
    rfl
  · intro r p h ht
    rcases p with ⟨t, i⟩
    cases h
    cases ht
    rfl

/-- Witness for C10 at concrete parts: a part carrying both fields, and a
part with empty text. -/
theorem C10_parse_edge_cases_witness :
    applyPart { image := none, text := some "t" } partWithBoth
      = { image := some (dataURI stubInline), text := some "t" }
    ∧ applyPart { image := none, text := some "t" } emptyTextPart
      = { image := none, text := some "t" } :=
  ⟨C10_parse_edge_cases.1 { image := none, text := some "t" } partWithBoth stubInline rfl,
   C10_parse_edge_cases.2 { image := none, text := some "t" } emptyTextPart rfl rfl⟩

end AIImageEditor
